import Mathlib

/-!
Verification of the StoriesAnalysis ingestion/dashboard specification
against the repository's code.

The frontend sources (upload page, data context, dashboard pages, chat
fallback, formatters) are embedded directly.  The backend cleaning
pipeline (`data_cleaning.py`) is not part of the shipped sources, so the
components the specification describes for it (field tokenizer,
hierarchy tracker, derived-field corrector, branch normalizer, cache)
are modelled from the specification's own contracts; each such
definition is marked `Modelled from the spec:` in its doc comment.
-/

/-- Checks whether `needle` occurs at the start of `hs`. -/
def startsWithList : List Char → List Char → Bool
  | [], _ => true
  | _ :: _, [] => false
  | a :: as, b :: bs => a == b && startsWithList as bs

/-- Checks whether `needle` occurs as a contiguous run anywhere in `hs`. -/
def containsList (needle : List Char) : List Char → Bool
  | [] => needle.isEmpty
  | c :: rest => startsWithList needle (c :: rest) || containsList needle rest

/-- Character-level lowercasing: semantics of the JavaScript
`String.prototype.toLowerCase` on the ASCII report names and keywords
this code applies it to. -/
def lowerChars (s : String) : List Char :=
  s.toList.map Char.toLower

/-- Containment test over an already-lowercased character list:
semantics of `lower.includes(needle)` in the chat fallbacks. -/
def includes (needle : String) (hay : List Char) : Bool :=
  containsList needle.toList hay

/-- Case-insensitive containment: semantics of the regex `/code/i` used by
`EXPECTED_FILES[...]. pattern.test(name)` in the upload page. -/
def patternTest (code name : String) : Bool :=
  containsList (lowerChars code) (lowerChars name)

/-- One entry of `EXPECTED_FILES` (upload page): the report-code substring
that the regex looks for, plus the human label and the key. -/
structure ExpectedFile where
  code : String
  label : String
  key : String
deriving DecidableEq, Repr

/-- The `EXPECTED_FILES` table of the upload page: the four report-code
regexes `/00014/i`, `/00134/i`, `/00191/i`, `/00673/i` with labels. -/
def EXPECTED_FILES : List ExpectedFile :=
  [⟨"00014", "Product Profitability", "product_profitability"⟩,
   ⟨"00134", "Category Summary", "category_summary"⟩,
   ⟨"00191", "Product Group", "product_group"⟩,
   ⟨"00673", "Branch Monthly", "branch_monthly"⟩]

/-- Status of one uploaded file entry (upload page `FileEntry.status`). -/
inductive FileStatus
  | pending
  | matched
  | error
deriving DecidableEq, Repr

/-- One `FileEntry` of the upload page, keyed by the file name. -/
structure FileEntry where
  name : String
  matchedLabel : Option String
  status : FileStatus
deriving DecidableEq, Repr

/-- The `EXPECTED_FILES.find` step of `matchFiles`: first expected file
whose pattern matches the file name. -/
def matchFile (name : String) : Option ExpectedFile :=
  EXPECTED_FILES.find? (fun ef => patternTest ef.code name)

/-- The upload page's `matchFiles`: every incoming file is kept, stamped
`matched` with its label when a pattern matches, `error` otherwise. -/
def matchFiles (names : List String) : List FileEntry :=
  names.map (fun n =>
    match matchFile n with
    | some ef => ⟨n, some ef.label, FileStatus.matched⟩
    | none => ⟨n, none, FileStatus.error⟩)

/-- The upload page's `matchedCount`: number of entries with status
`matched`. -/
def matchedCount (files : List FileEntry) : Nat :=
  (files.filter (fun f => f.status == FileStatus.matched)).length

/-- The upload page's `allMatched` flag: `matchedCount === 4`. -/
def allMatched (files : List FileEntry) : Bool :=
  matchedCount files == 4

/-- The upload page's `ProcessingState` union. -/
inductive ProcessingState
  | idle
  | checking
  | uploading
  | processing
  | done
  | error
deriving DecidableEq, Repr

/-- The run button's enabled condition: negation of
`!allMatched || processing === "uploading" || processing === "processing"`. -/
def runButtonEnabled (files : List FileEntry) (st : ProcessingState) : Bool :=
  !(!allMatched files || st == ProcessingState.uploading
      || st == ProcessingState.processing)

/-- A ranked branch entry of `topBranches` / `bottomBranches` in
`defaultData.ts`. -/
structure RankedBranch where
  rank : Nat
  name : String
  revenue : String
deriving DecidableEq, Repr

/-- One entry of `modifierAttachRates` in `defaultData.ts`.  The rate is
a decimal percentage, embedded exactly as a rational. -/
structure AttachRate where
  branch : String
  rate : ℚ
deriving DecidableEq, Repr

/-- One clustering card of `clusters` in `defaultData.ts` (presentation
fields such as icon and color strings are omitted; the branch membership
list is the datum the invariants are about). -/
structure Cluster where
  name : String
  branches : List String
deriving DecidableEq, Repr

/-- The slice of `AnalysisData` (src/data/types.ts) that the verified
invariants mention: dataset label, branch rankings, heatmap tables,
modifier attach rates and cluster membership.  The reducer treats the
whole record opaquely, so omitting presentation-only fields does not
change any reducer fact. -/
structure AnalysisData where
  datasetName : String
  topBranches : List RankedBranch
  bottomBranches : List RankedBranch
  heatmapBranches : List String
  branchMonthly : List (String × List ℚ)
  modifierAttachRates : List AttachRate
  clusters : List Cluster
deriving DecidableEq, Repr

/-- The hardcoded default dataset `DEFAULT_DATA` of `defaultData.ts`,
restricted to the embedded fields, values copied verbatim. -/
def DEFAULT_DATA : AnalysisData :=
  { datasetName := "Stories Coffee · Full Year 2025"
    topBranches :=
      [⟨1, "Ain El Mreisseh", "119.6M"⟩,
       ⟨2, "Zalka", "108.0M"⟩,
       ⟨3, "Khaldeh", "84.2M"⟩,
       ⟨4, "Ramlet El Bayda", "56.1M"⟩,
       ⟨5, "Saida", "55.0M"⟩]
    bottomBranches :=
      [⟨21, "Unknown (Closed)", "13.9M"⟩,
       ⟨22, "Faqra", "11.0M"⟩,
       ⟨23, "Raouche", "9.1M"⟩,
       ⟨24, "Kaslik", "5.6M"⟩,
       ⟨25, "Event Starco", "0.6M"⟩]
    heatmapBranches :=
      ["Ain El Mreisseh", "Zalka", "Khaldeh", "Ramlet El Bayda", "Saida",
       "Batroun", "Bayada", "Le Mall", "Airport", "Centro Mall",
       "Bir Hasan", "Antelias", "Aley"]
    branchMonthly :=
      [("Ain El Mreisseh", [12648547, 9929973, 9849927, 13025923, 7208975, 2883403, 11889329, 11610098, 11021124, 10516784, 9387783, 9640996]),
       ("Zalka", [10449007, 8417640, 10840107, 11182530, 6433973, 2504900, 10265530, 10774439, 9882170, 9775940, 8876666, 8566292]),
       ("Khaldeh", [7468155, 6108429, 6420841, 8455732, 4487118, 2262395, 9464292, 10661996, 7859844, 7348415, 6744352, 6874043]),
       ("Ramlet El Bayda", [0, 1570807, 3588563, 6011885, 3542743, 1445760, 7427540, 7668110, 6585103, 6435859, 5863676, 5944644]),
       ("Saida", [7263332, 5121351, 4684911, 6361154, 3010782, 1323360, 5939826, 5925561, 4245092, 3639435, 3665841, 3825644]),
       ("Batroun", [4266517, 3388117, 4890198, 5516882, 2963980, 1311240, 6135003, 6751770, 5041151, 4372226, 4272668, 5163712]),
       ("Bayada", [4497377, 3419107, 5083387, 5196907, 3043400, 1208190, 5448610, 5613039, 4917258, 5224336, 4588470, 4403458]),
       ("Le Mall", [3881015, 3772587, 4220770, 4428620, 2163877, 967783, 4986426, 5452826, 4201889, 3807124, 3984059, 5003541]),
       ("Airport", [0, 0, 0, 0, 0, 8429, 2940003, 6963426, 7467198, 8414673, 7029720, 6604829]),
       ("Centro Mall", [3264533, 2944807, 2218467, 3937167, 1955287, 924383, 4201340, 4307333, 3232538, 3059646, 3497555, 3998663]),
       ("Bir Hasan", [3355705, 2842994, 2266051, 3459980, 2125379, 744638, 3799740, 3783898, 3255936, 3128529, 2851287, 2743088]),
       ("Antelias", [2615854, 2139011, 3162717, 3391741, 2033636, 728978, 2963697, 3182364, 2909965, 2715153, 2551353, 2234760]),
       ("Aley", [0, 0, 0, 0, 0, 0, 4219345, 8565845, 5397296, 4503168, 4071091, 3739481])]
    modifierAttachRates :=
      [⟨"Verdun", 60.4⟩, ⟨"Bir Hasan", 53.0⟩, ⟨"Antelias", 43.2⟩,
       ⟨"Raouche", 42.0⟩, ⟨"Sour 2", 41.1⟩, ⟨"Ramlet El Bayda", 40.6⟩,
       ⟨"Khaldeh", 39.3⟩, ⟨"LAU", 38.8⟩, ⟨"Saida", 35.7⟩,
       ⟨"Ain El Mreisseh", 30.0⟩, ⟨"Zalka", 24.8⟩]
    clusters :=
      [⟨"Cash Cows", ["Ain El Mreisseh", "Zalka", "Khaldeh"]⟩,
       ⟨"Established",
        ["Batroun", "Bayada", "Le Mall", "Centro Mall", "Bir Hasan",
         "Antelias", "Saida", "Verdun", "Sin El Fil", "Amioun", "LAU",
         "Unknown (Closed)", "Faqra"]⟩,
       ⟨"Growth Engines",
        ["Airport", "Ramlet El Bayda", "Aley", "Mansourieh", "Jbeil",
         "Sour 2", "Raouche", "Kaslik"]⟩,
       ⟨"Event/Specialty", ["Event Starco"]⟩] }

/-- Modelled from the spec: the fixed canonical branch set of the
Branch Normalizer (`data_cleaning.py`, not under src/).  Per the spec it
is a fixed closed set of known branch identities plus one explicit
Unknown/Closed bucket; the README fixes its size at 25 names and the
default dataset's cluster membership lists enumerate exactly these
names, so the canonical list is taken as that enumeration. -/
def CANONICAL_BRANCHES : List String :=
  ["Ain El Mreisseh", "Zalka", "Khaldeh",
   "Batroun", "Bayada", "Le Mall", "Centro Mall", "Bir Hasan",
   "Antelias", "Saida", "Verdun", "Sin El Fil", "Amioun", "LAU",
   "Unknown (Closed)", "Faqra",
   "Airport", "Ramlet El Bayda", "Aley", "Mansourieh", "Jbeil",
   "Sour 2", "Raouche", "Kaslik",
   "Event Starco"]

/-- The Unknown/Closed bucket every unmatched raw label resolves to. -/
def UNKNOWN_BUCKET : String := "Unknown (Closed)"

/-- Modelled from the spec: the Branch Normalizer of `data_cleaning.py`
(not under src/).  Contract (§4.4): exact/case-insensitive match against
the canonical table first; known alias variants map via an explicit
alias table, which is injected data, not code; anything unmatched maps
deterministically to the single Unknown/Closed bucket. -/
def normalizeBranch (aliasTable : List (String × String)) (raw : String) : String :=
  match CANONICAL_BRANCHES.find? (fun c => lowerChars c == lowerChars raw) with
  | some c => c
  | none =>
    match aliasTable.find? (fun p => lowerChars p.1 == lowerChars raw) with
    | some p => p.2
    | none => UNKNOWN_BUCKET

/-- Maximum of a list of monthly values, 0 for the empty list.  For the
non-empty, non-negative monthly series the heatmap feeds it, this agrees
with the JavaScript `Math.max(...data)` spread. -/
def maxMonthly (data : List ℚ) : ℚ :=
  data.foldr max 0

/-- Association lookup mirroring the JavaScript object index
`data.branchMonthly[branch]` (undefined becomes `none`). -/
def lookupBranch (table : List (String × List ℚ)) (branch : String) : Option (List ℚ) :=
  match table.find? (fun p => p.1 == branch) with
  | some p => some p.2
  | none => none

/-- The dashboard's `getHeatValue` (DashboardPage / SeasonalityTrends):
missing branch gives 0, a branch whose peak month is 0 gives 0,
otherwise the month's value divided by the branch's peak. -/
def getHeatValue (table : List (String × List ℚ)) (branch : String) (monthIdx : Nat) : ℚ :=
  match lookupBranch table branch with
  | none => 0
  | some data =>
    let mx := maxMonthly data
    if mx = 0 then 0 else data.getD monthIdx 0 / mx

/-- The `source` field of the data-context state. -/
inductive DataSource
  | dflt
  | uploaded
  | processing
deriving DecidableEq, Repr

/-- The data-context state (`DataState` in DataContext.tsx). -/
structure DataState where
  data : AnalysisData
  isLoading : Bool
  error : Option String
  source : DataSource
deriving DecidableEq, Repr

/-- The data-context action union (`DataAction` in DataContext.tsx),
plus one value standing for any action outside the declared union,
which the reducer's `default` switch arm handles. -/
inductive DataAction
  | setLoading
  | setData (payload : AnalysisData)
  | setError (message : String)
  | reset
  | unrecognized
deriving DecidableEq, Repr

/-- The `dataReducer` of DataContext.tsx, case by case. -/
def dataReducer (state : DataState) (action : DataAction) : DataState :=
  match action with
  | DataAction.setLoading =>
    { state with isLoading := true, error := none, source := DataSource.processing }
  | DataAction.setData payload =>
    { data := payload, isLoading := false, error := none, source := DataSource.uploaded }
  | DataAction.setError message =>
    { state with
        isLoading := false
        error := some message
        source := if state.source = DataSource.processing then DataSource.dflt else state.source }
  | DataAction.reset =>
    { data := DEFAULT_DATA, isLoading := false, error := none, source := DataSource.dflt }
  | DataAction.unrecognized => state

/-- Outcome of the `uploadAndAnalyze` call awaited by `runAnalysis`:
either the parsed `AnalysisData` or a thrown error's message. -/
inductive UploadOutcome
  | ok (result : AnalysisData)
  | fail (message : String)
deriving DecidableEq, Repr

/-- The observable result of one `runAnalysis` run on the upload page:
final processing state, the error message set (if any), and the data
dispatched into the context (if any). -/
structure RunResult where
  state : ProcessingState
  errMsg : Option String
  installed : Option AnalysisData
deriving DecidableEq, Repr

/-- The offline-fallback message set by `runAnalysis` when the backend
health check fails. -/
def OFFLINE_MESSAGE : String :=
  "Backend offline — client-side analysis not yet available. Deploy the Flask backend for full processing."

/-- The upload page's `runAnalysis`, as a function of the backend health
check outcome and the upload call outcome.  The online branch
try/catches the upload: success dispatches SET_DATA and ends `done`;
a thrown error sets `err.message || \x22Backend analysis failed\x22` and ends
`error`.  The offline branch always ends `error` with the offline
message. -/
def runAnalysis (online : Bool) (outcome : UploadOutcome) : RunResult :=
  if online then
    match outcome with
    | UploadOutcome.ok result =>
      ⟨ProcessingState.done, none, some result⟩
    | UploadOutcome.fail message =>
      ⟨ProcessingState.error,
       some (if message == "" then "Backend analysis failed" else message),
       none⟩
  else
    ⟨ProcessingState.error, some OFFLINE_MESSAGE, none⟩

/-- Outcome of the `fetch` awaited by `checkBackendHealth`: either a
response with its `ok` flag, or a thrown error (network failure or the
3000 ms abort signal). -/
inductive FetchOutcome
  | response (okFlag : Bool)
  | thrown
deriving DecidableEq, Repr

/-- `checkBackendHealth` of src/lib (api helpers): returns `response.ok`
and catches every exception, returning false instead of throwing. -/
def checkBackendHealth : FetchOutcome → Bool
  | FetchOutcome.response okFlag => okFlag
  | FetchOutcome.thrown => false

/-- The ChatWidget's rule-based `generateResponse`: lowercases the input
and walks a fixed keyword-branch chain, ending in a default response. -/
def generateResponse (input : String) : String :=
  let lower := lowerChars input
  if includes "margin" lower || includes "leak" lower || includes "62m" lower || includes "loss" lower then
    "We identified 62M in annual profit leaks across 5 categories:\n\n• **Negative margin products**: 30.1M (1,197 items sold below cost)\n• **Free modifiers**: 28.1M in absorbed costs\n• **Cheesecake underpricing**: 2.1M gap to target margin\n• **Veggie Sub mispricing**: 1.7M (sold at 7/unit vs 60/unit cost)\n• **Amioun POS error**: 49K systematic undercharging\n\nAll fixable with zero additional investment."
  else if includes "branch" lower || includes "best" lower || includes "top" lower || includes "perform" lower then
    "**Top 5 branches by revenue:**\n\n1. Ain El Mreisseh — 119.6M\n2. Zalka — 108.0M\n3. Khaldeh — 84.2M\n4. Ramlet El Bayda — 56.1M\n5. Saida — 55.0M\n\nOur ML clustering grouped 25 branches into 4 segments: Cash Cows (3), Established (13), Growth Engines (8), and Event/Specialty (1)."
  else if includes "forecast" lower || includes "2026" lower || includes "predict" lower || includes "growth" lower then
    "Our GradientBoosting model projects **2026 revenue at 1.06B** (+26% YoY). Key drivers:\n\n• New branches ramping up (Airport, Ramlet El Bayda)\n• Summer peak months driving highest volumes\n• Sin El Fil projected +310% growth\n\nThe model uses per-branch seasonal features with ±1.5σ confidence intervals."
  else if includes "modifier" lower || includes "upsell" lower || includes "gold mine" lower || includes "attach" lower then
    "Modifiers are a **16.9M untapped opportunity**:\n\n• Current best: Verdun at 60.4% attach rate\n• Worst: Zalka at 24.8%\n• Modifier margins: 70-95%\n• Top margins: Yirgacheffe upgrade (95%), Drizzle toppings (90%)\n\nStrategy: POS prompts, barista training, and charging 5-10K per add-on."
  else if includes "menu" lower || includes "star" lower || includes "dog" lower || includes "product" lower then
    "We classified **409 products** into 4 quadrants:\n\n⭐ **Stars (124)**: High volume + high margin — Iced Latte, Water, Cinnamon Roll\n🧩 **Puzzles (81)**: Low volume + high margin — Iced White Mocha (87%!)\n🐄 **Plowhorses (81)**: High volume + low margin — Black Coffee, Lazy Cake\n🐕 **Dogs (123)**: Low volume + low margin — consider removing\n\nFocus: promote Stars, market Puzzles, reprice Plowhorses, cut Dogs."
  else if includes "season" lower || includes "ramadan" lower || includes "summer" lower || includes "month" lower then
    "Strong seasonality patterns found:\n\n• **Peak**: August (109.4M) — summer drive\n• **Trough**: June (18.4M) — Ramadan effect, 83% drop\n• **Peak/Trough ratio**: 5.9×\n• **Recovery**: July bounces back to 89.6M\n\nRecommendation: build a Ramadan programming strategy and staff up for Jul-Aug."
  else
    "That's a great question! I can help with:\n\n• **Margin leaks** — the 62M opportunity\n• **Branch performance** — rankings & clusters\n• **Menu engineering** — product classification\n• **Modifiers** — the 16.9M upsell opportunity\n• **Forecasting** — 2026 projections\n• **Seasonality** — monthly patterns\n\nTry asking about any of these topics!"

/-- The ChatPage's `ruleFallback`: same shape as `generateResponse` with
its own keyword set; the `data` argument is accepted and unused, as in
the source. -/
def ruleFallback (question : String) (_data : AnalysisData) : String :=
  let q := lowerChars question
  if includes "revenue" q || includes "sales" q then
    "Total chain revenue for 2025 is **840.5M LBP**. Top branch is Ain El Mreisseh at 119.6M, followed by Zalka (108.0M) and Khaldeh (84.2M). The 2026 forecast projects **1.06B** (+26% YoY)."
  else if includes "margin" q || includes "leak" q || includes "loss" q then
    "We identified **62M in margin leaks** across 5 categories:\n1. Negative margin products: 30.1M (47 items sold below cost)\n2. Free modifiers: 28.1M (oat milk, almond milk etc. at $0)\n3. Cheesecake underpricing: 2.1M (34.4% vs 63% target)\n4. Veggie Sub crisis: 1.7M (priced at 7 vs cost of 60)\n5. Amioun POS error: 49K\n\nThe free modifier problem exists because the POS was set up with $0 modifiers, staff aren't prompted to upcharge, and the chain may have used free upgrades as competitive positioning."
  else if includes "modifier" q || includes "oat" q || includes "almond" q then
    "**28.1M/year** in free modifiers. Top offenders:\n- ADD Oat Milk: 184K units, 7.4M cost absorbed\n- ADD Almond Milk: 156K units, 5.5M cost absorbed\n- ADD Decaf Shot: 143K units, 4.3M cost absorbed\n\nRecommendation: Charge 30-50% of cost for premium modifiers. Recovery potential: **8.4–14.1M/year**."
  else if includes "cluster" q || includes "branch" q || includes "segment" q then
    "KMeans clustering identified **4 segments**:\n1. **Cash Cows** (Ain El Mreisseh, Zalka, Khaldeh) — Avg 104M revenue\n2. **Established** (13 branches) — Avg 32M, focus on efficiency\n3. **Growth Engines** (Airport, Ramlet El Bayda, Aley + 5) — +100% growth\n4. **Event/Specialty** (Event Starco) — 76% margin, event-driven"
  else if includes "forecast" q || includes "2026" q || includes "predict" q then
    "GradientBoosting model projects **1.06B** for 2026 (+26% YoY). Key drivers:\n- Airport branch ramping to full-year operation\n- Sin El Fil projected at 84.5M (+310%)\n- New branches (Aley, Mansourieh) reaching maturity"
  else if includes "menu" q || includes "star" q || includes "dog" q then
    "Menu engineering classified **409 products**:\n- ⭐ Stars (124): High margin + high volume (Iced Latte, Mango Yoghurt Combo)\n- 🧩 Puzzles (81): High margin, low volume — need marketing\n- 🐎 Plowhorses (81): High volume, low margin — reprice\n- 🐕 Dogs (123): Low on both — consider removal"
  else
    "I'm the Stories Coffee analytics assistant. I can answer questions about:\n- Revenue & profitability (840M/year)\n- Margin leaks (62M identified)\n- Free modifier analysis (28.1M in giveaways)\n- Menu engineering (409 products classified)\n- Branch clustering (4 strategic segments)\n- 2026 revenue forecast (1.06B)\n\nWhat would you like to know?"

/-- Error raised by the Field Tokenizer on an unterminated quote,
carrying the originating line number. -/
inductive TokenizeError
  | untermQuote (lineNo : Nat)
deriving DecidableEq, Repr

/-- Modelled from the spec: the Field Tokenizer of `data_cleaning.py`
(not under src/; the backend uses Python csv.reader).  Contract (§4.1):
a delimiter inside a quoted span is part of the field value; a doubled
quote inside a quoted span is an escaped literal quote; an unterminated
quote at end-of-line is an error reported with the line number.  The
`cur` and `acc` accumulators are kept reversed. -/
def tokenizeAux (delim : Char) (lineNo : Nat) :
    Bool → List Char → List Char → List String → Except TokenizeError (List String)
  | false, [], cur, acc => Except.ok ((String.mk cur.reverse) :: acc).reverse
  | false, c :: rest, cur, acc =>
    if c == delim then
      tokenizeAux delim lineNo false rest [] ((String.mk cur.reverse) :: acc)
    else if c == '"' then
      tokenizeAux delim lineNo true rest cur acc
    else
      tokenizeAux delim lineNo false rest (c :: cur) acc
  | true, [], _, _ => Except.error (TokenizeError.untermQuote lineNo)
  | true, '"' :: '"' :: rest, cur, acc =>
    tokenizeAux delim lineNo true rest ('"' :: cur) acc
  | true, '"' :: rest, cur, acc =>
    tokenizeAux delim lineNo false rest cur acc
  | true, c :: rest, cur, acc =>
    tokenizeAux delim lineNo true rest (c :: cur) acc

/-- Tokenizes one raw line into its ordered field values. -/
def tokenizeLine (delim : Char) (lineNo : Nat) (line : String) :
    Except TokenizeError (List String) :=
  tokenizeAux delim lineNo false line.toList [] []

/-- The per-stream hierarchy context (spec §3): current branch, service
type, category and section, each either a previously-seen header value
or the unset sentinel `none`. -/
structure HierarchyContext where
  branch : Option String
  serviceType : Option String
  category : Option String
  sectionName : Option String
deriving DecidableEq, Repr

/-- The fully-unset starting context of a parsing pass. -/
def HierarchyContext.unset : HierarchyContext := ⟨none, none, none, none⟩

/-- Classified row kinds (spec §4.3 and design note: a closed sum type
with one variant per hierarchy level plus leaf and noise). -/
inductive ClassifiedRow
  | branchHeader (label : String)
  | serviceHeader (label : String)
  | categoryHeader (label : String)
  | sectionHeader (label : String)
  | leafRow (label : String)
  | noise
deriving DecidableEq, Repr

/-- Which context fields a report's schema requires on its leaf rows
(spec §3: context fields required by that report's schema). -/
structure ReportSchema where
  needsBranch : Bool
  needsService : Bool
  needsCategory : Bool
  needsSection : Bool
deriving DecidableEq, Repr

/-- True when every context field the schema requires is set. -/
def contextComplete (sch : ReportSchema) (c : HierarchyContext) : Bool :=
  (!sch.needsBranch || c.branch.isSome)
    && (!sch.needsService || c.serviceType.isSome)
    && (!sch.needsCategory || c.category.isSome)
    && (!sch.needsSection || c.sectionName.isSome)

/-- A leaf row stamped with the hierarchy context current when it was
encountered. -/
structure StampedRow where
  branch : Option String
  serviceType : Option String
  category : Option String
  sectionName : Option String
  label : String
deriving DecidableEq, Repr

/-- Modelled from the spec: the Hierarchy Tracker state machine of
`data_cleaning.py` (not under src/).  Contract (§4.3): each header kind
resets the deeper context fields to unset; a leaf row with complete
required context is stamped and emitted; a leaf row encountered while
required context is unset is reported as a structural error (counted)
and excluded, never stamped with partial context.  Returns the emitted
rows in encounter order together with the structural-error count. -/
def trackRows (sch : ReportSchema) :
    HierarchyContext → List ClassifiedRow → List StampedRow × Nat
  | _, [] => ([], 0)
  | c, row :: rest =>
    match row with
    | ClassifiedRow.branchHeader s =>
      trackRows sch ⟨some s, none, none, none⟩ rest
    | ClassifiedRow.serviceHeader s =>
      trackRows sch { c with serviceType := some s, category := none, sectionName := none } rest
    | ClassifiedRow.categoryHeader s =>
      trackRows sch { c with category := some s, sectionName := none } rest
    | ClassifiedRow.sectionHeader s =>
      trackRows sch { c with sectionName := some s } rest
    | ClassifiedRow.noise => trackRows sch c rest
    | ClassifiedRow.leafRow lbl =>
      let tail := trackRows sch c rest
      if contextComplete sch c then
        (⟨c.branch, c.serviceType, c.category, c.sectionName, lbl⟩ :: tail.1, tail.2)
      else
        (tail.1, tail.2 + 1)

/-- Number of leaf rows in a classified stream. -/
def leafCount (rows : List ClassifiedRow) : Nat :=
  (rows.filter (fun r => match r with | ClassifiedRow.leafRow _ => true | _ => false)).length

/-- A leaf row's monetary fields as read from the source, before
correction (spec §3/§4.5); integral monetary units. -/
structure RawLeafFields where
  label : String
  quantity : Int
  totalPriceRaw : Int
  totalCost : Int
  totalProfit : Int
deriving DecidableEq, Repr

/-- A corrected leaf row carrying the derived `TrueRevenue`. -/
structure CorrectedLeaf where
  label : String
  quantity : Int
  trueRevenue : Int
  totalCost : Int
  totalProfit : Int
deriving DecidableEq, Repr

/-- Modelled from the spec: the Derived-Field Corrector of
`data_cleaning.py` (not under src/).  Contract (§4.5):
`TrueRevenue := TotalCost + TotalProfit` always, superseding any
Total Price field read from the source, unconditionally on every row. -/
def correctRow (r : RawLeafFields) : CorrectedLeaf :=
  ⟨r.label, r.quantity, r.totalCost + r.totalProfit, r.totalCost, r.totalProfit⟩

/-- Modelled from the spec: the Table Assembler step that applies the
corrector uniformly to every leaf row of a stream (spec §4.5/§4.6),
preserving encounter order. -/
def assembleTable (rows : List RawLeafFields) : List CorrectedLeaf :=
  rows.map correctRow

/-- A cache artifact (spec §4.7/§6): a typed record keyed by input
fingerprint and pipeline version, or a corrupted artifact. -/
inductive CacheArtifact (α : Type)
  | valid (fp : String) (version : Nat) (dataset : α)
  | corrupt
deriving DecidableEq, Repr

/-- Modelled from the spec: the content fingerprint (spec glossary: a
content-derived identifier used to detect whether cached output is
still valid).  Modelled as the content itself, the faithful
(collision-free) content-derived identifier. -/
def fingerprint (content : String) : String := content

/-- Modelled from the spec: the Cache Writer (spec §4.7): persists the
assembled dataset keyed by the input's fingerprint and the pipeline
version. -/
def writeCache {α : Type} (parse : String → α) (content : String) (version : Nat) :
    CacheArtifact α :=
  CacheArtifact.valid (fingerprint content) version (parse content)

/-- Modelled from the spec: a pipeline run with the Cache Reader in
front (spec §4.7): a cached dataset is served only when both the
content fingerprint and the pipeline version match; any mismatch,
corrupted artifact or absent cache falls back to a full re-parse. -/
def runWithCache {α : Type} (parse : String → α)
    (cache : Option (CacheArtifact α)) (content : String) (version : Nat) : α :=
  match cache with
  | some (CacheArtifact.valid fp v dataset) =>
    if fp = fingerprint content ∧ v = version then dataset else parse content
  | some CacheArtifact.corrupt => parse content
  | none => parse content

/-- True when a stamped row carries a set value for every context field
the report schema requires. -/
def stampedComplete (sch : ReportSchema) (st : StampedRow) : Bool :=
  (!sch.needsBranch || st.branch.isSome)
    && (!sch.needsService || st.serviceType.isSome)
    && (!sch.needsCategory || st.category.isSome)
    && (!sch.needsSection || st.sectionName.isSome)

theorem maxMonthly_nonneg (data : List ℚ) : 0 ≤ maxMonthly data := by
  induction data with
  | nil => exact le_refl 0
  | cons x xs ih => exact le_trans ih (le_max_right x (maxMonthly xs))

theorem le_maxMonthly {x : ℚ} {data : List ℚ} (hx : x ∈ data) :
    x ≤ maxMonthly data := by
  induction data with
  | nil => cases hx
  | cons y ys ih =>
    rcases List.mem_cons.mp hx with h | h
    · exact h ▸ le_max_left y (maxMonthly ys)
    · exact le_trans (ih h) (le_max_right y (maxMonthly ys))

/-- Claim C1: after the Derived-Field Corrector runs, every leaf row in
every assembled output table has `TrueRevenue = TotalCost + TotalProfit`
exactly, and `TrueRevenue` is never taken from the source's Total Price
field: the corrector's output is invariant under any change to the raw
Total Price, aggregate or not. -/
theorem trueRevenue_invariant :
    (∀ (rows : List RawLeafFields) (r : CorrectedLeaf), r ∈ assembleTable rows →
        r.trueRevenue = r.totalCost + r.totalProfit)
    ∧ (∀ (raw : RawLeafFields) (p : Int),
        correctRow { raw with totalPriceRaw := p } = correctRow raw) := by
  constructor
  · intro rows r hr
    simp only [assembleTable, List.mem_map] at hr
    obtain ⟨raw, _, rfl⟩ := hr
    rfl
  · intro raw p
    rfl

theorem trueRevenue_invariant_witness :
    (correctRow ⟨"Veggie Sub", 31840, 222880, 1910400, -1687520⟩).trueRevenue
      = (correctRow ⟨"Veggie Sub", 31840, 222880, 1910400, -1687520⟩).totalCost
        + (correctRow ⟨"Veggie Sub", 31840, 222880, 1910400, -1687520⟩).totalProfit :=
  trueRevenue_invariant.1 [⟨"Veggie Sub", 31840, 222880, 1910400, -1687520⟩] _ (by decide)

/-- Claim C2: a file is recognized exactly when its name contains one of
the four report-code substrings, case-insensitively; unmatched files are
kept in the list flagged `error`, never dropped; the run button is
enabled only when the matched count is exactly 4. -/
theorem report_code_matching :
    (∀ name : String,
        (matchFile name).isSome = true ↔
          (containsList (lowerChars "00014") (lowerChars name) = true
            ∨ containsList (lowerChars "00134") (lowerChars name) = true
            ∨ containsList (lowerChars "00191") (lowerChars name) = true
            ∨ containsList (lowerChars "00673") (lowerChars name) = true))
    ∧ (∀ names : List String, (matchFiles names).length = names.length)
    ∧ (∀ (names : List String) (e : FileEntry), e ∈ matchFiles names →
        (e.status = FileStatus.error ↔ matchFile e.name = none))
    ∧ (∀ (files : List FileEntry) (st : ProcessingState),
        runButtonEnabled files st = true → matchedCount files = 4) := by
  refine ⟨?_, ?_, ?_, ?_⟩
  · intro name
    unfold matchFile EXPECTED_FILES
    rw [List.find?_isSome]
    constructor
    · rintro ⟨ef, hmem, hp⟩
      simp only [List.mem_cons, List.not_mem_nil, or_false] at hmem
      rcases hmem with h | h | h | h <;> subst h <;>
        simp only [patternTest] at hp <;> simp [hp]
    · rintro (h | h | h | h)
      · exact ⟨⟨"00014", "Product Profitability", "product_profitability"⟩, by simp, h⟩
      · exact ⟨⟨"00134", "Category Summary", "category_summary"⟩, by simp, h⟩
      · exact ⟨⟨"00191", "Product Group", "product_group"⟩, by simp, h⟩
      · exact ⟨⟨"00673", "Branch Monthly", "branch_monthly"⟩, by simp, h⟩
  · intro names
    simp [matchFiles]
  · intro names e he
    simp only [matchFiles, List.mem_map] at he
    obtain ⟨n, _, rfl⟩ := he
    cases h : matchFile n <;> simp [h]
  · intro files st h
    simp only [runButtonEnabled, Bool.not_eq_true', Bool.or_eq_false_iff] at h
    have h1 := h.1.1
    simp only [allMatched, Bool.not_eq_false', beq_iff_eq] at h1
    exact h1

theorem report_code_matching_witness :
    (matchFile "rep_s_00014_SMRY.csv").isSome = true
      ∧ matchedCount (matchFiles
          ["rep_s_00014_SMRY.csv", "REP_S_00134_SMRY.csv",
           "rep_s_00191_SMRY-3.csv", "rep_s_00673_SMRY.csv"]) = 4 :=
  ⟨(report_code_matching.1 "rep_s_00014_SMRY.csv").mpr (Or.inl (by decide)),
   report_code_matching.2.2.2
     (matchFiles
       ["rep_s_00014_SMRY.csv", "REP_S_00134_SMRY.csv",
        "rep_s_00191_SMRY-3.csv", "rep_s_00673_SMRY.csv"])
     ProcessingState.idle (by decide)⟩

/-- Claim C3: the default dataset's cluster membership lists are exactly
the fixed 25-name canonical branch set (no duplicates, containing the
Unknown/Closed bucket), every branch name occurring in the rankings,
heatmap tables, attach rates and cluster lists belongs to it, and the
Branch Normalizer maps every raw label into the canonical set, sending
anything unmatched by the canonical or alias table deterministically to
the Unknown/Closed bucket. -/
theorem branch_closure :
    ((DEFAULT_DATA.clusters.map Cluster.branches).flatten = CANONICAL_BRANCHES
      ∧ CANONICAL_BRANCHES.Nodup
      ∧ CANONICAL_BRANCHES.length = 25
      ∧ UNKNOWN_BUCKET ∈ CANONICAL_BRANCHES
      ∧ (∀ b ∈ DEFAULT_DATA.topBranches, b.name ∈ CANONICAL_BRANCHES)
      ∧ (∀ b ∈ DEFAULT_DATA.bottomBranches, b.name ∈ CANONICAL_BRANCHES)
      ∧ (∀ n ∈ DEFAULT_DATA.heatmapBranches, n ∈ CANONICAL_BRANCHES)
      ∧ (∀ p ∈ DEFAULT_DATA.branchMonthly, p.1 ∈ CANONICAL_BRANCHES)
      ∧ (∀ r ∈ DEFAULT_DATA.modifierAttachRates, r.branch ∈ CANONICAL_BRANCHES))
    ∧ (∀ (aliasTable : List (String × String)) (raw : String),
        (∀ p ∈ aliasTable, p.2 ∈ CANONICAL_BRANCHES) →
          normalizeBranch aliasTable raw ∈ CANONICAL_BRANCHES
          ∧ ((CANONICAL_BRANCHES.find? (fun c => lowerChars c == lowerChars raw) = none
                ∧ aliasTable.find? (fun p => lowerChars p.1 == lowerChars raw) = none)
              → normalizeBranch aliasTable raw = UNKNOWN_BUCKET)) := by
  constructor
  · exact ⟨by decide, by decide, by decide, by decide, by decide,
      by decide, by decide, by decide, by decide⟩
  · intro aliasTable raw halias
    constructor
    · unfold normalizeBranch
      cases hc : CANONICAL_BRANCHES.find? (fun c => lowerChars c == lowerChars raw) with
      | some c => exact List.mem_of_find?_eq_some hc
      | none =>
        cases ha : aliasTable.find? (fun p => lowerChars p.1 == lowerChars raw) with
        | some p => exact halias p (List.mem_of_find?_eq_some ha)
        | none => decide
    · rintro ⟨hc, ha⟩
      unfold normalizeBranch
      rw [hc, ha]

theorem branch_closure_witness :
    normalizeBranch [("Ain el Mreisse", "Ain El Mreisseh")] "Stories Hamra Pop-Up"
      = UNKNOWN_BUCKET :=
  (branch_closure.2 [("Ain el Mreisse", "Ain El Mreisseh")] "Stories Hamra Pop-Up"
      (by decide)).2 ⟨by decide, by decide⟩

/-- Claim C4: the Field Tokenizer keeps a delimiter inside a quoted span
as part of the field value and treats a doubled quote inside a quoted
span as an escaped literal quote, so `A,"B, C",D` tokenizes to exactly
the three fields A / B, C / D; an unterminated quote at end-of-line is
an error carrying the originating line number. -/
theorem tokenizer_quoting :
    tokenizeLine ',' 1 "A,\"B, C\",D" = Except.ok ["A", "B, C", "D"]
    ∧ (∀ lineNo : Nat,
        tokenizeLine ',' lineNo "A,\"B, C"
          = Except.error (TokenizeError.untermQuote lineNo))
    ∧ (∀ lineNo : Nat,
        tokenizeLine ',' lineNo "A,\"B\"\"C\",D" = Except.ok ["A", "B\"C", "D"]) :=
  ⟨rfl, fun _ => rfl, fun _ => rfl⟩

/-- Claim C5: every leaf row the Hierarchy Tracker emits carries a set
value for every context field its report schema requires, and every
leaf row encountered with incomplete required context is counted as a
structural error and excluded: emitted rows plus error count equals the
number of leaf rows, so none is silently dropped. -/
theorem context_completeness (sch : ReportSchema) (rows : List ClassifiedRow) :
    ∀ c : HierarchyContext,
      (∀ st ∈ (trackRows sch c rows).1, stampedComplete sch st = true)
      ∧ (trackRows sch c rows).1.length + (trackRows sch c rows).2 = leafCount rows := by
  induction rows with
  | nil =>
    intro c
    refine ⟨?_, ?_⟩
    · intro st h
      simp [trackRows] at h
    · simp [trackRows, leafCount]
  | cons r rest ih =>
    intro c
    cases r with
    | branchHeader s =>
      simpa [trackRows, leafCount] using ih ⟨some s, none, none, none⟩
    | serviceHeader s =>
      simpa [trackRows, leafCount] using
        ih { c with serviceType := some s, category := none, sectionName := none }
    | categoryHeader s =>
      simpa [trackRows, leafCount] using ih { c with category := some s, sectionName := none }
    | sectionHeader s =>
      simpa [trackRows, leafCount] using ih { c with sectionName := some s }
    | noise =>
      simpa [trackRows, leafCount] using ih c
    | leafRow lbl =>
      by_cases h : contextComplete sch c = true
      · have hstamp :
            stampedComplete sch ⟨c.branch, c.serviceType, c.category, c.sectionName, lbl⟩
              = true := by
          simpa [stampedComplete, contextComplete] using h
        refine ⟨?_, ?_⟩
        · intro st hst
          simp [trackRows, h] at hst
          rcases hst with rfl | hst
          · exact hstamp
          · exact (ih c).1 st hst
        · have hrec := (ih c).2
          simp only [leafCount] at hrec
          simp [trackRows, h, leafCount, List.filter_cons]
          omega
      · refine ⟨?_, ?_⟩
        · intro st hst
          simp [trackRows, h] at hst
          exact (ih c).1 st hst
        · have hrec := (ih c).2
          simp only [leafCount] at hrec
          simp [trackRows, h, leafCount, List.filter_cons]
          omega

theorem context_completeness_witness :
    stampedComplete ⟨true, true, true, true⟩
        ⟨some "Hamra", some "TAKE AWAY", some "Beverages", some "Hot Drinks", "Latte"⟩
      = true :=
  (context_completeness ⟨true, true, true, true⟩
      [ClassifiedRow.leafRow "Orphan row",
       ClassifiedRow.branchHeader "Hamra",
       ClassifiedRow.serviceHeader "TAKE AWAY",
       ClassifiedRow.categoryHeader "Beverages",
       ClassifiedRow.sectionHeader "Hot Drinks",
       ClassifiedRow.leafRow "Latte"]
      HierarchyContext.unset).1 _ (by decide)

/-- Claim C6: a cached run is served only when the content fingerprint
and pipeline version both match, in which case the cache holds exactly
the full parse of that same content, so output with the cache enabled
is value-for-value identical to output with the cache disabled; any
mismatch, corrupt artifact or missing cache falls back to a full
re-parse. -/
theorem cache_transparency {α : Type} (parse : String → α) (content : String)
    (version : Nat) (cache : Option (CacheArtifact α))
    (h : cache = none ∨ cache = some CacheArtifact.corrupt
          ∨ ∃ c0 v0, cache = some (writeCache parse c0 v0)) :
    runWithCache parse cache content version = parse content := by
  rcases h with rfl | rfl | ⟨c0, v0, rfl⟩
  · rfl
  · rfl
  · simp only [runWithCache, writeCache, fingerprint]
    split
    · rename_i hcond
      rw [hcond.1]
    · rfl

theorem cache_transparency_witness :
    runWithCache String.length (some (writeCache String.length "raw export" 3))
        "raw export" 3
      = String.length "raw export" :=
  cache_transparency String.length "raw export" 3
    (some (writeCache String.length "raw export" 3))
    (Or.inr (Or.inr ⟨"raw export", 3, rfl⟩))

/-- Claim C7: a pipeline run on the upload page always ends in a usable
result: online success ends `done` with the new data installed; any
thrown upload failure ends `error` with an explicit message; the offline
path ends `error` with the offline message; and `checkBackendHealth`
returns the response's ok flag and returns false instead of throwing
when the fetch throws. -/
theorem pipeline_result_totality :
    (∀ d : AnalysisData,
        runAnalysis true (UploadOutcome.ok d)
          = ⟨ProcessingState.done, none, some d⟩)
    ∧ (∀ (online : Bool) (outcome : UploadOutcome),
        ((runAnalysis online outcome).state = ProcessingState.done
            ∧ (runAnalysis online outcome).installed.isSome = true)
          ∨ ((runAnalysis online outcome).state = ProcessingState.error
            ∧ (runAnalysis online outcome).errMsg.isSome = true))
    ∧ (∀ b : Bool, checkBackendHealth (FetchOutcome.response b) = b)
    ∧ checkBackendHealth FetchOutcome.thrown = false := by
  refine ⟨fun d => rfl, ?_, fun b => rfl, rfl⟩
  intro online outcome
  cases online <;> cases outcome <;> simp [runAnalysis]

/-- Claim C8: the heatmap normalizer `getHeatValue` is total and never
divides by zero: it returns 0 when the branch is missing from the table
or its peak is 0, and otherwise returns the month's value divided by
the branch's peak, which lies in the interval 0 to 1 whenever the
branch's monthly values are non-negative. -/
theorem heatmap_normalizer_safety (table : List (String × List ℚ)) (branch : String)
    (monthIdx : Nat) :
    (lookupBranch table branch = none → getHeatValue table branch monthIdx = 0)
    ∧ (∀ data, lookupBranch table branch = some data → maxMonthly data = 0 →
        getHeatValue table branch monthIdx = 0)
    ∧ (∀ data, lookupBranch table branch = some data → (∀ x ∈ data, 0 ≤ x) →
        monthIdx < data.length →
        0 ≤ getHeatValue table branch monthIdx
          ∧ getHeatValue table branch monthIdx ≤ 1) := by
  refine ⟨?_, ?_, ?_⟩
  · intro h
    simp [getHeatValue, h]
  · intro data h hm
    simp [getHeatValue, h, hm]
  · intro data h hnn hlen
    simp only [getHeatValue, h]
    by_cases hm : maxMonthly data = 0
    · simp [hm]
    · have hv : data.getD monthIdx 0 ∈ data := by
        rw [List.getD_eq_getElem data 0 hlen]
        exact List.getElem_mem hlen
      have h0 : 0 ≤ data.getD monthIdx 0 := hnn _ hv
      have hle : data.getD monthIdx 0 ≤ maxMonthly data := le_maxMonthly hv
      have hpos : 0 < maxMonthly data :=
        lt_of_le_of_ne (maxMonthly_nonneg data) (Ne.symm hm)
      simp only [hm, if_false]
      exact ⟨div_nonneg h0 (le_of_lt hpos), (div_le_one hpos).mpr hle⟩

theorem heatmap_normalizer_safety_witness :
    0 ≤ getHeatValue [("Zalka", [3, 1, 2])] "Zalka" 1
      ∧ getHeatValue [("Zalka", [3, 1, 2])] "Zalka" 1 ≤ 1 :=
  (heatmap_normalizer_safety [("Zalka", [3, 1, 2])] "Zalka" 1).2.2
    [3, 1, 2] (by decide) (by decide) (by decide)

/-- Claim C9: the data-context reducer keeps the displayed dataset on
failure: SET_ERROR leaves `data` unchanged, clears `isLoading`, records
the message, and resets `source` to default only when it was
processing; an unrecognized action returns the state unchanged; RESET
restores exactly the default dataset with source default. -/
theorem data_reducer_frame :
    (∀ (s : DataState) (m : String),
        dataReducer s (DataAction.setError m) =
          { s with isLoading := false, error := some m,
                   source := if s.source = DataSource.processing then DataSource.dflt
                             else s.source })
    ∧ (∀ s : DataState, dataReducer s DataAction.unrecognized = s)
    ∧ (∀ s : DataState,
        dataReducer s DataAction.reset =
          ⟨DEFAULT_DATA, false, none, DataSource.dflt⟩) :=
  ⟨fun _ _ => rfl, fun _ => rfl, fun _ => rfl⟩

set_option maxRecDepth 8192 in
/-- Claim C10: the rule-based chat fallbacks are total deterministic
pure functions: for every input, `generateResponse` and `ruleFallback`
return a non-empty string (the final default branch guarantees this
when no keyword matches), and equal inputs give equal outputs. -/
theorem chat_fallback_totality :
    (∀ input : String, 0 < (generateResponse input).length)
    ∧ (∀ (question : String) (d : AnalysisData), 0 < (ruleFallback question d).length)
    ∧ (∀ s t : String, s = t → generateResponse s = generateResponse t)
    ∧ (∀ (s t : String) (d : AnalysisData), s = t → ruleFallback s d = ruleFallback t d) := by
  refine ⟨?_, ?_, fun s t h => h ▸ rfl, fun s t d h => h ▸ rfl⟩
  · intro input
    simp only [generateResponse]
    repeat' split
    all_goals decide
  · intro question d
    simp only [ruleFallback]
    repeat' split
    all_goals decide

theorem chat_fallback_totality_witness :
    0 < (generateResponse "What are the biggest margin leaks?").length
      ∧ generateResponse "hello" = generateResponse "hello" :=
  ⟨chat_fallback_totality.1 "What are the biggest margin leaks?",
   chat_fallback_totality.2.2.1 "hello" "hello" rfl⟩
